import Mathlib

/-!
Verification of the YOLOv3 Lightning module in `Assignment13/main_lt.py`.

The Python file defines a static architecture configuration list
(`model_config`), layer-building (`YOLOv3._create_conv_layers`), the
multi-scale forward pass (`YOLOv3.forward`), the sub-modules `CNNBlock`,
`ResidualBlock` and `ScalePrediction`, and the Lightning lifecycle hooks
(`configure_optimizers`, `training_step`, `validation_step`,
`training_epoch_end`, `validation_epoch_end`).

We embed these shallowly:
* the configuration list and the layer list it produces are embedded as
  Lean lists of inductive descriptors;
* `YOLOv3.forward` is embedded as a symbolic execution over the layer
  list: the input tensor is an opaque symbolic expression, each layer
  application wraps it in a constructor, and the `route_connections`
  Python list is an explicit stack (the Python list appends at the end,
  reads `[-1]`, and pops the end; we keep the top of the stack at the head
  of a Lean list, which implements exactly that discipline);
* the tensor-shape behaviour of `CNNBlock`, `ResidualBlock` and
  `ScalePrediction` is embedded as partial shape functions
  (`Option Shape`), with `none` at the points where PyTorch raises
  (channel mismatch, output spatial size below 1, reshape element-count
  mismatch, elementwise addition of differently shaped tensors);
* the lifecycle hooks are embedded as functions from their numeric
  inputs to the list of observable events they perform (checkpoint saves,
  metric logs, evaluation calls).
-/

/-- One entry of the Python `model_config` list.
`conv f k s` is the tuple `(filters, kernel_size, stride)`;
`block n` is `["B", n]`; `scale` is `"S"`; `upsample` is `"U"`. -/
inductive ConfigItem where
  | conv (filters kernelSize stride : Nat)
  | block (numRepeats : Nat)
  | scale
  | upsample
deriving DecidableEq, Repr

/-- The static `model_config` list from `main_lt.py` (lines 43-68). -/
def model_config : List ConfigItem :=
  [ .conv 32 3 1,
    .conv 64 3 2,
    .block 1,
    .conv 128 3 2,
    .block 2,
    .conv 256 3 2,
    .block 8,
    .conv 512 3 2,
    .block 8,
    .conv 1024 3 2,
    .block 4,
    .conv 512 1 1,
    .conv 1024 3 1,
    .scale,
    .conv 256 1 1,
    .upsample,
    .conv 256 1 1,
    .conv 512 3 1,
    .scale,
    .conv 128 1 1,
    .upsample,
    .conv 128 1 1,
    .conv 256 3 1,
    .scale ]

/-- A constructed layer of the `nn.ModuleList` built by
`YOLOv3._create_conv_layers`.  `cnnBlock inC outC k s p bnAct` records the
`CNNBlock` constructor arguments (with the `Conv2d` padding made explicit);
`residualBlock c useRes n` records `ResidualBlock(c, use_residual, num_repeats)`;
`scalePrediction inC nc` records `ScalePrediction(in_channels, num_classes)`;
`upsample s` records `nn.Upsample(scale_factor=s)`. -/
inductive Layer where
  | cnnBlock (inC outC kernelSize stride padding : Nat) (bnAct : Bool)
  | residualBlock (channels : Nat) (useResidual : Bool) (numRepeats : Nat)
  | scalePrediction (inC numClasses : Nat)
  | upsample (scaleFactor : Nat)
deriving DecidableEq, Repr

/-- The loop body of `YOLOv3._create_conv_layers` (lines 162-197), folded
over the remaining config items while threading the running `in_channels`.
The tuple case appends a `CNNBlock` with `padding = 1 if kernel_size == 3
else 0` and sets `in_channels = out_channels`; the `["B", n]` case appends
`ResidualBlock(in_channels, num_repeats=n)` (with the default
`use_residual=True`); the `"S"` case appends a non-residual
`ResidualBlock`, a `CNNBlock` halving the channels, and a
`ScalePrediction`, then halves `in_channels`; the `"U"` case appends
`nn.Upsample(scale_factor=2)` and triples `in_channels`. -/
def createConvLayersAux (numClasses : Nat) : List ConfigItem → Nat → List Layer
  | [], _ => []
  | ConfigItem.conv outC k s :: rest, inC =>
      Layer.cnnBlock inC outC k s (if k = 3 then 1 else 0) true ::
        createConvLayersAux numClasses rest outC
  | ConfigItem.block n :: rest, inC =>
      Layer.residualBlock inC true n :: createConvLayersAux numClasses rest inC
  | ConfigItem.scale :: rest, inC =>
      Layer.residualBlock inC false 1 ::
      Layer.cnnBlock inC (inC / 2) 1 1 0 true ::
      Layer.scalePrediction (inC / 2) numClasses ::
        createConvLayersAux numClasses rest (inC / 2)
  | ConfigItem.upsample :: rest, inC =>
      Layer.upsample 2 :: createConvLayersAux numClasses rest (inC * 3)

/-- `YOLOv3._create_conv_layers`: the layer list built from `model_config`,
starting from the model's `in_channels`. -/
def createConvLayers (inChannels numClasses : Nat) : List Layer :=
  createConvLayersAux numClasses model_config inChannels

/-- A symbolic tensor value flowing through `YOLOv3.forward`:
`input` is the argument `x`; `applyLayer i e` is the result of applying
the layer at position `i` of the layer list to `e`; `catChannels a b` is
`torch.cat([a, b], dim=1)`. -/
inductive Expr where
  | input
  | applyLayer (idx : Nat) (e : Expr)
  | catChannels (a b : Expr)
deriving DecidableEq, Repr

/-- Observable events of one `YOLOv3.forward` execution:
`pushed i` records `route_connections.append(x)` after the residual block
at layer position `i`; `catPopped u r` records
`x = torch.cat([x, route_connections[-1]], dim=1); route_connections.pop()`
at the upsample layer at position `u`, with `r` the route value consumed. -/
inductive ForwardEv where
  | pushed (layerIdx : Nat)
  | catPopped (upsampleIdx : Nat) (route : Expr)
deriving DecidableEq, Repr

/-- The loop of `YOLOv3.forward` (lines 143-160) over the indexed layer
list, threading the current tensor `x`, the accumulated `outputs`
(tagged with the producing layer's position), the `route_connections`
stack (top at the head), and the event trace.  A `ScalePrediction` layer
appends `layer(x)` to `outputs` and leaves `x` unchanged (the Python
`continue`); every other layer updates `x = layer(x)`; a `ResidualBlock`
with `num_repeats == 8` then pushes `x`; an `nn.Upsample` then
concatenates `x` with `route_connections[-1]` and pops.  Reading
`route_connections[-1]` on an empty list is the Python `IndexError`,
embedded as `none`. -/
def forwardAux : List (Nat × Layer) → Expr → List (Nat × Expr) → List Expr →
    List ForwardEv → Option (List (Nat × Expr) × List Expr × List ForwardEv)
  | [], _, outputs, routes, trace => some (outputs, routes, trace)
  | (i, Layer.scalePrediction _ _) :: rest, x, outputs, routes, trace =>
      forwardAux rest x (outputs ++ [(i, Expr.applyLayer i x)]) routes trace
  | (i, Layer.residualBlock _ _ n) :: rest, x, outputs, routes, trace =>
      let x2 := Expr.applyLayer i x
      if n = 8 then
        forwardAux rest x2 outputs (x2 :: routes) (trace ++ [ForwardEv.pushed i])
      else
        forwardAux rest x2 outputs routes trace
  | (i, Layer.upsample _) :: rest, x, outputs, routes, trace =>
      let x2 := Expr.applyLayer i x
      match routes with
      | [] => none
      | r :: rs =>
          forwardAux rest (Expr.catChannels x2 r) outputs rs
            (trace ++ [ForwardEv.catPopped i r])
  | (i, Layer.cnnBlock _ _ _ _ _ _) :: rest, x, outputs, routes, trace =>
      forwardAux rest (Expr.applyLayer i x) outputs routes trace

/-- `YOLOv3.forward` on a symbolic input, over the layers built from
`model_config`: returns the tagged `outputs` list, the final
`route_connections` stack, and the event trace, or `none` if an
`IndexError` is reached. -/
def yoloForward (inChannels numClasses : Nat) :
    Option (List (Nat × Expr) × List Expr × List ForwardEv) :=
  forwardAux (createConvLayers inChannels numClasses).enum Expr.input [] [] []

/-- Positions of the `ScalePrediction` layers in a layer list, in order. -/
def scalePredPositions (layers : List Layer) : List Nat :=
  (layers.enum.filter fun p =>
    match p.2 with
    | Layer.scalePrediction _ _ => true
    | _ => false).map Prod.fst

/-- Positions of the `nn.Upsample` layers in a layer list, in order. -/
def upsamplePositions (layers : List Layer) : List Nat :=
  (layers.enum.filter fun p =>
    match p.2 with
    | Layer.upsample _ => true
    | _ => false).map Prod.fst

/-- The outermost layer application of a symbolic tensor, when it is one. -/
def Expr.headIdx : Expr → Option Nat
  | Expr.applyLayer i _ => some i
  | _ => none

/-- The `catPopped` events of a trace, as
(upsample position, outermost layer of the consumed route) pairs. -/
def catPoppedPairs (trace : List ForwardEv) : List (Nat × Option Nat) :=
  trace.filterMap fun e =>
    match e with
    | ForwardEv.catPopped u r => some (u, r.headIdx)
    | _ => none

/-- The `pushed` events of a trace, as layer positions in order. -/
def pushedPositions (trace : List ForwardEv) : List Nat :=
  trace.filterMap fun e =>
    match e with
    | ForwardEv.pushed i => some i
    | _ => none

/-- C2: for every input tensor (symbolic, hence any valid shape) and any
`in_channels`/`num_classes`, `YOLOv3.forward` returns a list of exactly
three outputs, one produced by each `ScalePrediction` head, in the order
the three `"S"` entries appear in `model_config` (the heads occur in the
layer list in that order, and the output tags are exactly the head
positions in order). -/
theorem forward_returns_three_scale_outputs_in_order (inC nc : Nat) :
    ((yoloForward inC nc).map fun r => r.1.map Prod.fst)
        = some (scalePredPositions (createConvLayers inC nc))
      ∧ (scalePredPositions (createConvLayers inC nc)).length
        = (model_config.filter fun i => i = ConfigItem.scale).length
      ∧ (model_config.filter fun i => i = ConfigItem.scale).length = 3 := by
  refine ⟨rfl, rfl, rfl⟩

/-- C3: in `YOLOv3.forward`, immediately after each `nn.Upsample` layer
the upsampled map is concatenated (dim=1) with the most recently stored
route connection, which is then popped: the concat events cover the two
upsample positions in order, each consumed route is the output of a
`ResidualBlock` with `num_repeats == 8` (layer 8, then layer 6), and the
consumption order is the reverse of the push order (LIFO). -/
theorem upsample_concat_consumes_routes_lifo (inC nc : Nat) :
    ((yoloForward inC nc).map fun r => (catPoppedPairs r.2.2, pushedPositions r.2.2))
        = some ([(17, some 8), (24, some 6)], [6, 8])
      ∧ ((yoloForward inC nc).map fun r => (catPoppedPairs r.2.2).map Prod.fst)
        = some (upsamplePositions (createConvLayers inC nc))
      ∧ ((yoloForward inC nc).map fun r => (catPoppedPairs r.2.2).map Prod.snd)
        = ((yoloForward inC nc).map fun r => (pushedPositions r.2.2).reverse.map some)
      ∧ (createConvLayers inC nc).get? 6 = some (Layer.residualBlock 256 true 8)
      ∧ (createConvLayers inC nc).get? 8 = some (Layer.residualBlock 512 true 8) := by
  refine ⟨rfl, rfl, rfl, rfl, rfl⟩

/-- C9: `YOLOv3.forward` over the layers built from `model_config` never
reads `route_connections[-1]` on an empty list (the run succeeds), every
upsample layer performs exactly one concat-and-pop, exactly two routes are
pushed and two popped, and `route_connections` is empty when `forward`
returns. -/
theorem forward_route_stack_safe (inC nc : Nat) :
    (yoloForward inC nc).isSome = true
      ∧ ((yoloForward inC nc).map fun r => r.2.1) = some []
      ∧ ((yoloForward inC nc).map fun r => (pushedPositions r.2.2).length) = some 2
      ∧ ((yoloForward inC nc).map fun r => (catPoppedPairs r.2.2).length) = some 2
      ∧ (upsamplePositions (createConvLayers inC nc)).length = 2 := by
  refine ⟨rfl, rfl, rfl, rfl, rfl⟩

/-- A tensor shape, one entry per dimension. -/
abbrev Shape := List Nat

/-- Spatial output size of `nn.Conv2d` (dilation 1) along one dimension:
`floor((h + 2p - k) / s) + 1`, or `none` when the result would be below 1
(PyTorch raises "Output size is too small"). -/
def conv2dOut (h k s p : Nat) : Option Nat :=
  if k ≤ h + 2 * p then some ((h + 2 * p - k) / s + 1) else none

/-- Shape behaviour of `CNNBlock.forward`: the `nn.Conv2d` requires a
4-dimensional input whose channel count equals `in_channels` and maps it
to `out_channels` with the convolution's spatial arithmetic; the optional
`BatchNorm2d` and `LeakyReLU` preserve the shape. -/
def cnnBlockShape (inC outC k s p : Nat) : Shape → Option Shape
  | [n, c, h, w] =>
      if c = inC then
        match conv2dOut h k s p, conv2dOut w k s p with
        | some h2, some w2 => some [n, outC, h2, w2]
        | _, _ => none
      else none
  | _ => none

/-- Elementwise `x + y` on shapes: defined when the shapes agree (the
shapes met by this code are always equal, so broadcasting never fires). -/
def addShape (a b : Shape) : Option Shape :=
  if a = b then some a else none

/-- Shape behaviour of `ResidualBlock.forward` (lines 100-107): for each
of the `num_repeats` stored layers — `Sequential(CNNBlock(c, c // 2,
kernel_size=1), CNNBlock(c // 2, c, kernel_size=3, padding=1))` — the
block computes `x = x + layer(x)` when `use_residual` and `x = layer(x)`
otherwise. -/
def residualBlockShape (channels : Nat) (useResidual : Bool) :
    Nat → Shape → Option Shape
  | 0, s => some s
  | n + 1, s =>
      match cnnBlockShape channels (channels / 2) 1 1 0 s with
      | none => none
      | some s1 =>
          match cnnBlockShape (channels / 2) channels 3 1 1 s1 with
          | none => none
          | some s2 =>
              match (if useResidual then addShape s s2 else some s2) with
              | none => none
              | some s3 => residualBlockShape channels useResidual n s3

/-- Shape behaviour of `ScalePrediction.forward` (lines 121-126):
`self.pred` is `Sequential(CNNBlock(in_channels, 2*in_channels,
kernel_size=3, padding=1), CNNBlock(2*in_channels, (num_classes+5)*3,
bn_act=False, kernel_size=1))`; the result is reshaped to
`(x.shape[0], 3, num_classes + 5, x.shape[2], x.shape[3])` (defined when
the element counts agree, as `torch.reshape` requires) and permuted by
`(0, 1, 3, 4, 2)`.  `reshapeShape` is `torch.Tensor.reshape` to an
explicit target shape. -/
def reshapeShape (s target : Shape) : Option Shape :=
  if s.foldr (· * ·) 1 = target.foldr (· * ·) 1 then some target else none

/-- `torch.Tensor.permute(0, 1, 3, 4, 2)` on a 5-d shape. -/
def permute01342 : Shape → Option Shape
  | [a, b, c, d, e] => some [a, b, d, e, c]
  | _ => none

/-- Shape behaviour of the whole `ScalePrediction.forward` pipeline:
`self.pred`, then reshape, then permute. -/
def scalePredictionShape (inC numClasses : Nat) : Shape → Option Shape
  | [n, c, h, w] =>
      (cnnBlockShape inC (2 * inC) 3 1 1 [n, c, h, w]).bind fun s1 =>
        (cnnBlockShape (2 * inC) ((numClasses + 5) * 3) 1 1 0 s1).bind fun s2 =>
          (reshapeShape s2 [n, 3, numClasses + 5, h, w]).bind permute01342
  | _ => none

/-- Under the hypotheses of C4/C8 the inner 1x1 convolution is the
identity on spatial size. -/
theorem conv2dOut_k1 (h : Nat) (hh : 1 ≤ h) : conv2dOut h 1 1 0 = some h := by
  simp only [conv2dOut, Nat.mul_zero, Nat.add_zero]
  rw [if_pos hh]
  congr 1
  omega

/-- Under the hypotheses of C4/C8 the padded 3x3 convolution with stride 1
is the identity on spatial size. -/
theorem conv2dOut_k3 (h : Nat) (hh : 1 ≤ h) : conv2dOut h 3 1 1 = some h := by
  simp only [conv2dOut]
  rw [if_pos (by omega)]
  congr 1
  omega

/-- C4: a `ResidualBlock(channels, use_residual=True, num_repeats=n)`
applies `x = x + layer(x)` for each stored layer in order, each layer
mapping `channels` to `channels // 2` and back, so on any 4-d input with
`channels` channels and positive spatial size the output shape equals the
input shape. -/
theorem residualBlock_use_residual_preserves_shape
    (channels N h w n : Nat) (hh : 1 ≤ h) (hw : 1 ≤ w) :
    residualBlockShape channels true n [N, channels, h, w]
      = some [N, channels, h, w] := by
  induction n with
  | zero => rfl
  | succ k ih =>
      simp only [residualBlockShape, cnnBlockShape, conv2dOut_k1 h hh,
        conv2dOut_k1 w hw, conv2dOut_k3 h hh, conv2dOut_k3 w hw,
        if_pos rfl, addShape, if_true, ih]

/-- Witness for C4 at a concrete block and input. -/
theorem residualBlock_use_residual_preserves_shape_witness :
    residualBlockShape 64 true 3 [2, 64, 8, 8] = some [2, 64, 8, 8] :=
  residualBlock_use_residual_preserves_shape 64 2 8 8 3 (by decide) (by decide)

/-- C8: `ScalePrediction.forward` on an input of shape `(N, C, H, W)` with
`C` equal to the head's `in_channels` (and positive spatial size, as the
convolutions require) returns a tensor of shape
`(N, 3, H, W, num_classes + 5)`. -/
theorem scalePrediction_output_shape (inC numClasses N h w : Nat)
    (hh : 1 ≤ h) (hw : 1 ≤ w) :
    scalePredictionShape inC numClasses [N, inC, h, w]
      = some [N, 3, h, w, numClasses + 5] := by
  simp only [scalePredictionShape, cnnBlockShape, eq_self_iff_true, if_true,
    conv2dOut_k3 h hh, conv2dOut_k3 w hw, Option.some_bind]
  simp only [conv2dOut_k1 h hh, conv2dOut_k1 w hw, Option.some_bind]
  simp only [reshapeShape, List.foldr_cons, List.foldr_nil]
  rw [if_pos (by ring)]
  simp only [Option.some_bind, permute01342]

/-- Witness for C8 at a concrete head and input. -/
theorem scalePrediction_output_shape_witness :
    scalePredictionShape 512 80 [1, 512, 13, 13]
      = some [1, 3, 13, 13, 85] :=
  scalePrediction_output_shape 512 80 1 13 13 (by decide) (by decide)

/-- Observable actions of `YOLOv3.validation_epoch_end` (lines 234-253),
in program order: `check_class_accuracy` on the test loader, the
`get_evaluation_bboxes`/`mean_average_precision` computation, and
`self.log("MAP", ...)`. -/
inductive ValEndEv where
  | checkClassAccuracyTest
  | evaluateBboxes
  | logMAP
deriving DecidableEq, Repr

/-- `YOLOv3.validation_epoch_end`: when `current_epoch % 10 == 0 or
current_epoch in (1, 2, 3)` it checks class accuracy on the test loader,
computes evaluation boxes and mAP, and logs the mAP under `"MAP"`;
otherwise the body does nothing. -/
def validation_epoch_end (current_epoch : Nat) : List ValEndEv :=
  if current_epoch % 10 = 0 ∨ current_epoch = 1 ∨ current_epoch = 2
      ∨ current_epoch = 3 then
    [ValEndEv.checkClassAccuracyTest, ValEndEv.evaluateBboxes, ValEndEv.logMAP]
  else
    []

/-- C5: mAP is computed and logged under `"MAP"` at the end of a
validation epoch exactly when the epoch is divisible by 10 or is one of
1, 2, 3; at every other epoch `validation_epoch_end` performs no
evaluation at all. -/
theorem validation_epoch_end_logs_MAP_iff (e : Nat) :
    (ValEndEv.logMAP ∈ validation_epoch_end e
        ↔ (e % 10 = 0 ∨ e = 1 ∨ e = 2 ∨ e = 3))
      ∧ ((e % 10 = 0 ∨ e = 1 ∨ e = 2 ∨ e = 3)
        → validation_epoch_end e
          = [ValEndEv.checkClassAccuracyTest, ValEndEv.evaluateBboxes,
             ValEndEv.logMAP])
      ∧ (¬(e % 10 = 0 ∨ e = 1 ∨ e = 2 ∨ e = 3)
        → validation_epoch_end e = []) := by
  unfold validation_epoch_end
  by_cases hc : e % 10 = 0 ∨ e = 1 ∨ e = 2 ∨ e = 3
  · rw [if_pos hc]
    exact ⟨⟨fun _ => hc, fun _ => by decide⟩, fun _ => rfl,
      fun hn => absurd hc hn⟩
  · rw [if_neg hc]
    exact ⟨⟨fun hm => absurd hm (by decide), fun hp => absurd hp hc⟩,
      fun hp => absurd hp hc, fun _ => rfl⟩

/-- Witness for C5: epoch 20 logs mAP, epoch 7 does nothing. -/
theorem validation_epoch_end_logs_MAP_iff_witness :
    ValEndEv.logMAP ∈ validation_epoch_end 20
      ∧ validation_epoch_end 7 = [] :=
  ⟨(validation_epoch_end_logs_MAP_iff 20).1.2 (by decide),
   (validation_epoch_end_logs_MAP_iff 7).2.2 (by decide)⟩

/-- Observable actions of `YOLOv3.training_epoch_end` (lines 228-232). -/
inductive TrainEndEv where
  | saveCheckpoint (filename : String)
  | checkClassAccuracyTrain
deriving DecidableEq, Repr

/-- `YOLOv3.training_epoch_end`: saves
`checkpoint_{current_epoch}.pth.tar` when `config.SAVE_MODEL`, then in
either case checks class accuracy on the train loader. -/
def training_epoch_end (saveModel : Bool) (current_epoch : Nat) :
    List TrainEndEv :=
  (if saveModel then
      [TrainEndEv.saveCheckpoint
        ("checkpoint_" ++ toString current_epoch ++ ".pth.tar")]
    else []) ++ [TrainEndEv.checkClassAccuracyTrain]

/-- C6: at the end of every training epoch, the checkpoint named
`checkpoint_{current_epoch}.pth.tar` is saved iff `config.SAVE_MODEL`
holds, no other checkpoint is ever saved, and in either case class
accuracy on the training loader is checked afterwards (it is the last
action). -/
theorem training_epoch_end_checkpoint_iff (saveModel : Bool) (e : Nat) :
    (TrainEndEv.saveCheckpoint ("checkpoint_" ++ toString e ++ ".pth.tar")
        ∈ training_epoch_end saveModel e ↔ saveModel = true)
      ∧ (∀ f, TrainEndEv.saveCheckpoint f ∈ training_epoch_end saveModel e
        → f = "checkpoint_" ++ toString e ++ ".pth.tar")
      ∧ (training_epoch_end saveModel e).getLast?
        = some TrainEndEv.checkClassAccuracyTrain := by
  unfold training_epoch_end
  cases saveModel with
  | false =>
      refine ⟨by simp, fun f hf => ?_, rfl⟩
      simp at hf
  | true =>
      refine ⟨by simp, fun f hf => ?_, rfl⟩
      simp at hf
      exact hf

/-- Witness for C6: with `SAVE_MODEL` true at epoch 4 the checkpoint
`checkpoint_4.pth.tar` is saved; the only saved name is that one; class
accuracy is checked last. -/
theorem training_epoch_end_checkpoint_iff_witness :
    TrainEndEv.saveCheckpoint "checkpoint_4.pth.tar"
        ∈ training_epoch_end true 4
      ∧ (TrainEndEv.saveCheckpoint "other.pth.tar"
          ∈ training_epoch_end true 4 → False)
      ∧ (training_epoch_end true 4).getLast?
        = some TrainEndEv.checkClassAccuracyTrain := by
  refine ⟨(training_epoch_end_checkpoint_iff true 4).1.2 rfl, fun hm => ?_,
    (training_epoch_end_checkpoint_iff true 4).2.2⟩
  have := (training_epoch_end_checkpoint_iff true 4).2.1 "other.pth.tar" hm
  simp only [String.reduceAppend] at this
  exact absurd this (by decide)

/-- The constructor arguments of the `optim.Adam` instance built by
`YOLOv3.configure_optimizers`. -/
structure AdamSpec where
  lr : ℚ
  weight_decay : ℚ
deriving DecidableEq, Repr

/-- The constructor arguments of the `OneCycleLR` instance built by
`YOLOv3.configure_optimizers`. -/
structure OneCycleLRSpec where
  max_lr : ℚ
  steps_per_epoch : Nat
  epochs : Nat
  div_factor : ℚ
  pct_start : ℚ
deriving DecidableEq, Repr

/-- `YOLOv3.configure_optimizers` (lines 199-202): builds one Adam
optimizer with `lr=1e-05`, `weight_decay=1e-4`, one `OneCycleLR` with
`max_lr=1e-03`, `steps_per_epoch=len(self.train_loader)`, `epochs=40`,
`div_factor=100`, `pct_start=5/40`, and returns
`[optimizer], [scheduler]`. -/
def configure_optimizers (trainLoaderLen : Nat) :
    List AdamSpec × List OneCycleLRSpec :=
  ([{ lr := 1 / 100000, weight_decay := 1 / 10000 }],
   [{ max_lr := 1 / 1000, steps_per_epoch := trainLoaderLen, epochs := 40,
      div_factor := 100, pct_start := 5 / 40 }])

/-- C7: `configure_optimizers` always returns exactly one optimizer and
exactly one scheduler; every returned optimizer is Adam with learning
rate 1e-5 and weight decay 1e-4, and every returned scheduler is
OneCycleLR with max_lr 1e-3, steps_per_epoch equal to the training
loader's length, 40 epochs, div_factor 100 and pct_start 5/40. -/
theorem configure_optimizers_spec (n : Nat) :
    (configure_optimizers n).1.length = 1
      ∧ (configure_optimizers n).2.length = 1
      ∧ (∀ o ∈ (configure_optimizers n).1,
          o.lr = 1 / 100000 ∧ o.weight_decay = 1 / 10000)
      ∧ (∀ s ∈ (configure_optimizers n).2,
          s.max_lr = 1 / 1000 ∧ s.steps_per_epoch = n ∧ s.epochs = 40
            ∧ s.div_factor = 100 ∧ s.pct_start = 5 / 40) := by
  refine ⟨rfl, rfl, fun o ho => ?_, fun s hs => ?_⟩
  · simp only [configure_optimizers, List.mem_singleton] at ho
    subst ho
    exact ⟨rfl, rfl⟩
  · simp only [configure_optimizers, List.mem_singleton] at hs
    subst hs
    exact ⟨rfl, rfl, rfl, rfl, rfl⟩

/-- Witness for C7 at a loader of length 12. -/
theorem configure_optimizers_spec_witness :
    ((configure_optimizers 12).1.length = 1
        ∧ (configure_optimizers 12).2.length = 1)
      ∧ ∀ s ∈ (configure_optimizers 12).2, s.steps_per_epoch = 12 :=
  ⟨⟨(configure_optimizers_spec 12).1, (configure_optimizers_spec 12).2.1⟩,
   fun s hs => ((configure_optimizers_spec 12).2.2.2 s hs).2.1⟩

/-- `YOLOv3.validation_step` (lines 221-222): the body is `pass`, so the
call returns Python `None` (`Option.none`) and performs no observable
action (the empty event list). -/
def validation_step {α : Type} (batch : α) (batchIdx : Nat) :
    Option Unit × List ValEndEv :=
  (none, [])

/-- C10: for every batch and batch index, `validation_step` returns
`None` and performs no action at all, so parameters, buffers and logged
metrics are untouched. -/
theorem validation_step_returns_none_no_effects {α : Type} (batch : α)
    (batchIdx : Nat) :
    validation_step batch batchIdx = (none, []) := rfl

/-- The names bound at module level in `main_lt.py`: the `__future__`
import, the imported modules/functions (lines 1-30), and the module's own
definitions.  `from loss import YoloLoss` binds only `YoloLoss`; no
module-level binding named `loss_fn` exists (nor is `loss_fn` a Python
builtin). -/
def moduleGlobalNames : List String :=
  ["print_function", "pl", "torch", "nn", "F", "optim", "datasets",
   "transforms", "A", "np", "ToTensorV2", "summary", "tqdm", "LRFinder",
   "OneCycleLR", "plt", "GradCAM", "ClassifierOutputTarget",
   "show_cam_on_image", "YoloLoss", "mean_average_precision",
   "cells_to_bboxes", "get_evaluation_bboxes", "save_checkpoint",
   "load_checkpoint", "check_class_accuracy", "get_loaders",
   "plot_couple_examples", "model_config", "CNNBlock", "ResidualBlock",
   "ScalePrediction", "YOLOv3"]

/-- The local names bound inside `YOLOv3.training_step` (lines 204-212)
at the point where the loss expression is evaluated: the parameters and
the assignments `x, y = batch`, `y0, y1, y2 = ...`, `out = self(x)`. -/
def trainingStepLocalNames : List String :=
  ["self", "batch", "batch_idx", "x", "y", "y0", "y1", "y2", "out"]

/-- The instance attributes assigned by `YOLOv3.__init__`
(lines 130-140); note `self.loss_fn = YoloLoss()` on line 138. -/
def yoloInitAttrNames : List String :=
  ["num_classes", "in_channels", "layers", "config", "scaled_anchors",
   "loss_fn", "train_loader", "test_loader"]

/-- A Python runtime error relevant to `training_step`. -/
inductive PyError where
  | nameError (name : String)
deriving DecidableEq, Repr

/-- Python name resolution inside a method body: the local scope, then
the module's global scope (there is no enclosing function scope here, and
`loss_fn` is not among the builtins). -/
def resolveName (localNames : List String) (name : String) : Bool :=
  localNames.contains name || moduleGlobalNames.contains name

/-- `YOLOv3.training_step` (lines 204-219): after `x, y = batch`,
`y0, y1, y2 = y[0], y[1], y[2]` and `out = self(x)`, the train loss is
the expression `loss_fn(out[0], y0, self.scaled_anchors[0]) + loss_fn(
out[1], y1, self.scaled_anchors[1]) + loss_fn(out[2], y2,
self.scaled_anchors[2])`, whose evaluation begins by resolving the bare
name `loss_fn`; the result would then be logged under `"train_loss"`.
If the name does not resolve, Python raises `NameError` and nothing is
logged. -/
def training_step_logs : Except PyError (List String) :=
  if resolveName trainingStepLocalNames "loss_fn" then
    Except.ok ["train_loss"]
  else
    Except.error (PyError.nameError "loss_fn")

/-- C1 fails on the code as written: on every training batch,
`training_step` raises `NameError: name 'loss_fn' is not defined` before
computing or logging any loss, because `loss_fn` is bound neither in the
method's local scope nor at module level — while `__init__` does
initialise `self.loss_fn` (line 138), which the body never uses. -/
theorem training_step_raises_nameError :
    training_step_logs = Except.error (PyError.nameError "loss_fn")
      ∧ "loss_fn" ∉ moduleGlobalNames
      ∧ "loss_fn" ∉ trainingStepLocalNames
      ∧ "loss_fn" ∈ yoloInitAttrNames := by
  refine ⟨rfl, by decide, by decide, by decide⟩
